import Mathlib

/-!
Shallow embedding of the authentication core of `src/auth.py` from the
charlotte-api repository, together with executable models of the external
primitives it calls (`hashlib.sha256`, `secrets.token_hex`) and of the
user-record store it queries (`User.query`).  Machine integers are `Nat`
with explicit reduction modulo `2 ^ 32` where the SHA-256 arithmetic
overflows; Python exceptions are modelled with `Except`.
-/

set_option maxRecDepth 100000

namespace Charlotte

/-- Modulus of a 32-bit word, used throughout the SHA-256 model. -/
def M32 : Nat := 4294967296

/-- Right rotation of a 32-bit word by `n` bits. -/
def rotr (n x : Nat) : Nat := ((x >>> n) ||| (x <<< (32 - n))) % M32

/-- SHA-256 big sigma-0 word function. -/
def bigSigma0 (x : Nat) : Nat := rotr 2 x ^^^ rotr 13 x ^^^ rotr 22 x

/-- SHA-256 big sigma-1 word function. -/
def bigSigma1 (x : Nat) : Nat := rotr 6 x ^^^ rotr 11 x ^^^ rotr 25 x

/-- SHA-256 small sigma-0 word function. -/
def smallSigma0 (x : Nat) : Nat := rotr 7 x ^^^ rotr 18 x ^^^ (x >>> 3)

/-- SHA-256 small sigma-1 word function. -/
def smallSigma1 (x : Nat) : Nat := rotr 17 x ^^^ rotr 19 x ^^^ (x >>> 10)

/-- SHA-256 choice word function (bitwise negation is xor with the 32-bit mask). -/
def ch (x y z : Nat) : Nat := (x &&& y) ^^^ ((x ^^^ 4294967295) &&& z)

/-- SHA-256 majority word function. -/
def maj (x y z : Nat) : Nat := (x &&& y) ^^^ (x &&& z) ^^^ (y &&& z)

/-- The 64 SHA-256 round constants of FIPS 180-4, written in decimal. -/
def roundK : List Nat :=
  [1116352408, 1899447441, 3049323471, 3921009573, 961987163, 1508970993,
   2453635748, 2870763221, 3624381080, 310598401, 607225278, 1426881987,
   1925078388, 2162078206, 2614888103, 3248222580, 3835390401, 4022224774,
   264347078, 604807628, 770255983, 1249150122, 1555081692, 1996064986,
   2554220882, 2821834349, 2952996808, 3210313671, 3336571891, 3584528711,
   113926993, 338241895, 666307205, 773529912, 1294757372, 1396182291,
   1695183700, 1986661051, 2177026350, 2456956037, 2730485921, 2820302411,
   3259730800, 3345764771, 3516065817, 3600352804, 4094571909, 275423344,
   430227734, 506948616, 659060556, 883997877, 958139571, 1322822218,
   1537002063, 1747873779, 1955562222, 2024104815, 2227730452, 2361852424,
   2428436474, 2756734187, 3204031479, 3329325298]

/-- The eight-word working state of the SHA-256 compression function. -/
structure SHAState where
  a : Nat
  b : Nat
  c : Nat
  d : Nat
  e : Nat
  f : Nat
  g : Nat
  h : Nat
deriving DecidableEq

/-- The SHA-256 initial hash value of FIPS 180-4, written in decimal. -/
def initState : SHAState :=
  ⟨1779033703, 3144134277, 1013904242, 2773480762,
   1359893119, 2600822924, 528734635, 1541459225⟩

/-- Append the SHA-256 padding to a byte message: a `0x80` byte, zero bytes up
to 56 mod 64, then the bit length as 8 big-endian bytes. -/
def padMessage (ms : List Nat) : List Nat :=
  let L := ms.length
  let zeros := (120 - (L + 1) % 64) % 64
  let bits := 8 * L
  ms ++ [128] ++ List.replicate zeros 0 ++
    [(bits >>> 56) % 256, (bits >>> 48) % 256, (bits >>> 40) % 256, (bits >>> 32) % 256,
     (bits >>> 24) % 256, (bits >>> 16) % 256, (bits >>> 8) % 256, bits % 256]

/-- Group a padded byte list into big-endian 32-bit words. -/
def toWords : List Nat → List Nat
  | a :: b :: c :: d :: rest => (a * 16777216 + b * 65536 + c * 256 + d) :: toWords rest
  | _ => []

/-- Next word of the SHA-256 message schedule, reading the already produced
words most-recent-first. -/
def nextWord (rev : List Nat) : Nat :=
  (smallSigma1 (rev.getD 1 0) + rev.getD 6 0 + smallSigma0 (rev.getD 14 0) + rev.getD 15 0) % M32

/-- Extend a reversed word list by `n` schedule words and return it in order. -/
def extendSchedule : Nat → List Nat → List Nat
  | 0, rev => rev.reverse
  | n + 1, rev => extendSchedule n (nextWord rev :: rev)

/-- The 64-word SHA-256 message schedule of one 16-word block. -/
def schedule (block : List Nat) : List Nat := extendSchedule 48 block.reverse

/-- One round of the SHA-256 compression function. -/
def shaRound (st : SHAState) (k w : Nat) : SHAState :=
  let t1 := (st.h + bigSigma1 st.e + ch st.e st.f st.g + k + w) % M32
  let t2 := (bigSigma0 st.a + maj st.a st.b st.c) % M32
  ⟨(t1 + t2) % M32, st.a, st.b, st.c, (st.d + t1) % M32, st.e, st.f, st.g⟩

/-- Process one 16-word block: 64 rounds followed by the feed-forward addition. -/
def processBlock (st : SHAState) (block : List Nat) : SHAState :=
  let ws := schedule block
  let r := (roundK.zip ws).foldl (fun s kw => shaRound s kw.1 kw.2) st
  ⟨(st.a + r.a) % M32, (st.b + r.b) % M32, (st.c + r.c) % M32, (st.d + r.d) % M32,
   (st.e + r.e) % M32, (st.f + r.f) % M32, (st.g + r.g) % M32, (st.h + r.h) % M32⟩

/-- Take `n` chunks of 16 words each from the front of a word list. -/
def chunkAux : Nat → List Nat → List (List Nat)
  | 0, _ => []
  | n + 1, ws => ws.take 16 :: chunkAux n (ws.drop 16)

/-- Split a word list into chunks of 16 words (its length is always a
multiple of 16 after padding). -/
def chunk16 (ws : List Nat) : List (List Nat) := chunkAux ((ws.length + 15) / 16) ws

/-- SHA-256 digest of a byte message, as the final eight 32-bit words. -/
def sha256Words (ms : List Nat) : List Nat :=
  let fin := (chunk16 (toWords (padMessage ms))).foldl processBlock initState
  [fin.a, fin.b, fin.c, fin.d, fin.e, fin.f, fin.g, fin.h]

/-- Lowercase hexadecimal digit character for a nibble. -/
def hexDigitChar (n : Nat) : Char :=
  if n < 10 then Char.ofNat (48 + n) else Char.ofNat (87 + n)

/-- Render a 32-bit word as eight lowercase hexadecimal characters. -/
def wordToHex (w : Nat) : List Char :=
  [hexDigitChar ((w >>> 28) % 16), hexDigitChar ((w >>> 24) % 16),
   hexDigitChar ((w >>> 20) % 16), hexDigitChar ((w >>> 16) % 16),
   hexDigitChar ((w >>> 12) % 16), hexDigitChar ((w >>> 8) % 16),
   hexDigitChar ((w >>> 4) % 16), hexDigitChar (w % 16)]

/-- UTF-8 encoding of one character, as a byte list. -/
def encodeChar (c : Char) : List Nat :=
  let n := c.toNat
  if n < 128 then [n]
  else if n < 2048 then [192 + n / 64, 128 + n % 64]
  else if n < 65536 then [224 + n / 4096, 128 + (n / 64) % 64, 128 + n % 64]
  else [240 + n / 262144, 128 + (n / 4096) % 64, 128 + (n / 64) % 64, 128 + n % 64]

/-- UTF-8 encoding of a string, as a byte list (Python `s.encode('utf-8')`). -/
def utf8Encode (s : String) : List Nat := s.data.flatMap encodeChar

/-- Model of Python `hashlib.sha256(s.encode('utf-8')).hexdigest()`: the
SHA-256 digest of the UTF-8 encoding of `s`, in lowercase hexadecimal. -/
def sha256hex (s : String) : String :=
  String.mk ((sha256Words (utf8Encode s)).flatMap wordToHex)

/-- The user record held by the external store (`src.model.User` as the auth
core reads it): a primary-key id and the stored API-key hash column, which is
nullable (`None` when no key has been issued). -/
structure User where
  id : Nat
  api_key : Option String
deriving DecidableEq

/-- Error raised by the external store during a query (for example a
connectivity fault), carrying the database error message. -/
structure StoreErr where
  msg : String
deriving DecidableEq

/-- The external user-record store, as the auth core queries it:
`get` models `User.query.get(user_id)` (primary-key lookup, `none` when no
row exists) and `filter_first` models
`User.query.filter_by(api_key=h).first()` (first row whose `api_key` column
equals `h`, `none` when there is no match).  Either query may raise. -/
structure Store where
  get : Nat → Except StoreErr (Option User)
  filter_first : String → Except StoreErr (Option User)

/-- Exception type of `src/auth.py` (`AuthError`): a message and a status
code that defaults to 401 when the caller supplies none. -/
structure AuthError where
  message : String
  status_code : Nat
deriving DecidableEq

/-- Construct an `AuthError` from a message alone, taking the default
status code 401 (models `AuthError(message)` with `status_code=401`). -/
def AuthError.ofMessage (message : String) : AuthError :=
  ⟨message, 401⟩

/-- Python exceptions that can escape the functions of `src/auth.py`:
an `AuthError` raised by the guard, the `TypeError` raised by
`compare_digest` when the stored hash is `None`, or an uncaught store
error. -/
inductive PyError where
  | auth (e : AuthError)
  | typeError
  | storeError (e : StoreErr)
deriving DecidableEq

/-- Python truthiness test for an optional string argument:
`not api_key` holds when the argument is `None` or the empty string. -/
def isBlank : Option String → Bool
  | none => true
  | some s => s == ""

/-- Inner `try` block of `validate_api_key`: fetch the user row by id and
read its `api_key` attribute.  A store error propagates, and reading the
attribute of an absent row (`None.api_key`) raises `AttributeError`; the
caller catches both. -/
inductive FetchErr where
  | store (e : StoreErr)
  | attributeError
deriving DecidableEq

/-- Models the statements `user = User.query.get(user_id)` followed by
`user_hash = user.api_key` inside the `try` block of `validate_api_key`. -/
def fetchUserHash (store : Store) (user_id : Nat) : Except FetchErr (Option String) :=
  match store.get user_id with
  | .error e => .error (.store e)
  | .ok none => .error .attributeError
  | .ok (some u) => .ok u.api_key

/-- Model of `validate_api_key(user_id, api_key)`.  Returns `False` when
either argument is falsy; otherwise hashes the submitted key, fetches the
stored hash inside a `try` that turns any store/attribute error into
`False`, and finally calls `compare_digest(submitted_hash, user_hash)` —
which raises `TypeError` when `user_hash` is `None`, outside the `try`. -/
def validate_api_key (store : Store) (user_id : Nat) (api_key : Option String) :
    Except PyError Bool :=
  if user_id == 0 || isBlank api_key then .ok false
  else
    let submitted_hash := sha256hex (api_key.getD "")
    match fetchUserHash store user_id with
    | .error _ => .ok false
    | .ok none => .error .typeError
    | .ok (some user_hash) => .ok (submitted_hash == user_hash)

/-- Model of `user_for_api_key(api_key)`.  Returns `None` for a falsy key;
otherwise hashes the key and queries the store by that hash.  There is no
`try` here: a store error propagates to the caller. -/
def user_for_api_key (store : Store) (api_key : Option String) :
    Except PyError (Option User) :=
  if isBlank api_key then .ok none
  else
    let key_hash := sha256hex (api_key.getD "")
    match store.filter_first key_hash with
    | .error e => .error (.storeError e)
    | .ok u => .ok u

/-- Model of `user_from_jwt(authorization_header)`: the JWT path is a stub
that always yields no user. -/
def user_from_jwt (_authorization_header : String) : Option User := none

/-- Request headers as the guard reads them: the optional values of the
`Authorization` and `x-api-key` headers (`none` when the header is absent;
a present header carries a string, possibly empty). -/
structure Headers where
  authorization : Option String
  x_api_key : Option String
deriving DecidableEq

/-- Value of the local variable `user` in `decorated_function` after the
first `if`: the JWT resolution result when an `Authorization` header is
present, else `None`. -/
def jwt_user (headers : Headers) : Option User :=
  match headers.authorization with
  | some a => user_from_jwt a
  | none => none

/-- Condition under which `decorated_function` attempts API-key
resolution: an `x-api-key` header is present in the request. -/
def api_key_attempted (headers : Headers) : Bool :=
  headers.x_api_key.isSome

/-- Credential-resolution part of `decorated_function`: start with no user,
overwrite with the JWT result when an `Authorization` header is present,
then overwrite with the API-key lookup when an `x-api-key` header is
present (a store error from that lookup propagates). -/
def resolve_user (store : Store) (headers : Headers) : Except PyError (Option User) :=
  let user := jwt_user headers
  match headers.x_api_key with
  | some k => user_for_api_key store (some k)
  | none => .ok user

/-- Model of the wrapped view function built by `requires_auth`: resolve a
user from the request headers, raise
`AuthError("Authorization is required to access this resource")` when none
was resolved, and otherwise call the wrapped function once with the
resolved user bound as `current_user`. -/
def decorated_function {α β : Type} (store : Store) (f : α → User → β)
    (args : α) (headers : Headers) : Except PyError β :=
  match resolve_user store headers with
  | .error e => .error e
  | .ok none => .error (.auth (AuthError.ofMessage
      "Authorization is required to access this resource"))
  | .ok (some u) => .ok (f args u)

/-- Model of the decorator `requires_auth(f)` itself: it returns the
wrapped view function. -/
def requires_auth {α β : Type} (store : Store) (f : α → User → β) :
    α → Headers → Except PyError β :=
  fun args headers => decorated_function store f args headers

/-- Hex encoding of a byte list, low nibble after high nibble (models the
output format of `secrets.token_hex`). -/
def bytesToHex (bs : List Nat) : String :=
  String.mk (bs.flatMap fun b => [hexDigitChar (b / 16), hexDigitChar (b % 16)])

/-- The named tuple `KeyDetails` returned by `generate_api_key`. -/
structure ApiPair where
  api_key : String
  hashed_key : String
deriving DecidableEq

/-- Model of `generate_api_key()`.  The call `token_hex(32)` draws 32 bytes
from the platform randomness source; the model takes those bytes as the
explicit argument `randBytes` and performs the rest of the function:
hex-encode them as the key and store its SHA-256 hex digest. -/
def generate_api_key (randBytes : List Nat) : ApiPair :=
  let api_key := bytesToHex randBytes
  ⟨api_key, sha256hex api_key⟩

/-- An external store in a normal state, backed by a table of user rows:
`get` is primary-key lookup and `filter_first` returns the first row whose
`api_key` column equals the queried hash (a `NULL` column matches no
hash).  Neither query raises. -/
def dbStore (users : List User) : Store where
  get := fun uid => .ok (users.find? fun u => u.id == uid)
  filter_first := fun h => .ok (users.find? fun u => u.api_key == some h)

/-- Whether an `Except` computation returned normally rather than raising. -/
def exceptOk {ε α : Type} : Except ε α → Bool
  | .ok _ => true
  | .error _ => false

/-- Decidable equality of `Except` values, so that concrete runs of the
model can be checked by evaluation. -/
instance {ε α : Type} [DecidableEq ε] [DecidableEq α] : DecidableEq (Except ε α) := fun x y =>
  match x, y with
  | .ok a, .ok b =>
      if h : a = b then isTrue (by rw [h]) else isFalse (by intro hc; injection hc; contradiction)
  | .ok _, .error _ => isFalse (by intro hc; cases hc)
  | .error _, .ok _ => isFalse (by intro hc; cases hc)
  | .error e, .error e' =>
      if h : e = e' then isTrue (by rw [h]) else isFalse (by intro hc; injection hc; contradiction)

/-- Decidable store-state condition: the row found by `get user_id`, if
any, has a non-`NULL` `api_key` column. -/
def hashPresent (store : Store) (user_id : Nat) : Bool :=
  match store.get user_id with
  | .ok (some u) => u.api_key.isSome
  | _ => true

/-- Whether a character is a lowercase hexadecimal digit. -/
def isLowerHex (c : Char) : Bool :=
  (48 ≤ c.toNat && c.toNat ≤ 57) || (97 ≤ c.toNat && c.toNat ≤ 102)

/-- A store whose every query raises, modelling a connectivity fault. -/
def raisingStore : Store where
  get := fun _ => .error ⟨"connection refused"⟩
  filter_first := fun _ => .error ⟨"connection refused"⟩

/-- A store holding a user row whose `api_key` column is `NULL`. -/
def noneHashStore : Store where
  get := fun _ => .ok (some ⟨1, none⟩)
  filter_first := fun _ => .ok none

/-- Sanity check of the SHA-256 model against the published test vector. -/
theorem sha256hex_abc :
    sha256hex "abc" = "ba7816bf8f01cfea414140de5dae2223b00361a396177a9cb410ff61f20015ad" := by
  decide

/-- A nibble below 16 renders as a lowercase hexadecimal digit. -/
theorem hexDigitChar_lowerHex (n : Nat) (h : n < 16) : isLowerHex (hexDigitChar n) = true := by
  interval_cases n <;> decide

/-- Every character produced by `wordToHex` is a lowercase hexadecimal digit. -/
theorem wordToHex_lowerHex (w : Nat) : ∀ c ∈ wordToHex w, isLowerHex c = true := by
  intro c hc
  simp only [wordToHex, List.mem_cons, List.not_mem_nil, or_false] at hc
  rcases hc with h | h | h | h | h | h | h | h <;>
    (subst h; exact hexDigitChar_lowerHex _ (Nat.mod_lt _ (by norm_num)))

/-- A hex digest produced by the SHA-256 model always has 64 characters. -/
theorem sha256hex_length (s : String) : (sha256hex s).length = 64 := by
  simp [sha256hex, sha256Words, wordToHex, String.length]

/-- Every character of a hex digest produced by the SHA-256 model is a
lowercase hexadecimal digit. -/
theorem sha256hex_lowerHex (s : String) : ∀ c ∈ (sha256hex s).data, isLowerHex c = true := by
  intro c hc
  simp only [sha256hex, sha256Words] at hc
  rcases List.mem_flatMap.mp hc with ⟨w, _, hw⟩
  exact wordToHex_lowerHex w c hw

/-- Hex encoding doubles the length of a byte list. -/
theorem bytesToHex_length (bs : List Nat) : (bytesToHex bs).length = 2 * bs.length := by
  induction bs with
  | nil => rfl
  | cons b rest ih =>
    simp only [bytesToHex, String.length] at ih ⊢
    simp [List.flatMap_cons, ih]
    ring

/-- Every character of a hex-encoded byte list is a lowercase hexadecimal
digit, provided each byte is below 256. -/
theorem bytesToHex_lowerHex (bs : List Nat) (hb : ∀ b ∈ bs, b < 256) :
    ∀ c ∈ (bytesToHex bs).data, isLowerHex c = true := by
  intro c hc
  simp only [bytesToHex] at hc
  rcases List.mem_flatMap.mp hc with ⟨b, hbmem, hcw⟩
  have hlt : b < 256 := hb b hbmem
  simp only [List.mem_cons, List.not_mem_nil, or_false] at hcw
  rcases hcw with h | h <;> subst h
  · exact hexDigitChar_lowerHex _ (by omega)
  · exact hexDigitChar_lowerHex _ (Nat.mod_lt _ (by norm_num))

/-- C10: every pair returned by `generate_api_key` has an `api_key` of
exactly 64 lowercase hexadecimal characters (32 random bytes hex-encoded),
a `hashed_key` of exactly 64 lowercase hexadecimal characters, and the
`hashed_key` equals the SHA-256 hex digest of the UTF-8 encoding of the
`api_key`. -/
theorem generate_api_key_shape (randBytes : List Nat)
    (hlen : randBytes.length = 32) (hbytes : ∀ b ∈ randBytes, b < 256) :
    (generate_api_key randBytes).api_key.length = 64 ∧
    (∀ c ∈ (generate_api_key randBytes).api_key.data, isLowerHex c = true) ∧
    (generate_api_key randBytes).hashed_key.length = 64 ∧
    (∀ c ∈ (generate_api_key randBytes).hashed_key.data, isLowerHex c = true) ∧
    (generate_api_key randBytes).hashed_key = sha256hex (generate_api_key randBytes).api_key := by
  refine ⟨?_, ?_, ?_, ?_, rfl⟩
  · show (bytesToHex randBytes).length = 64
    rw [bytesToHex_length, hlen]
  · exact bytesToHex_lowerHex randBytes hbytes
  · exact sha256hex_length _
  · exact sha256hex_lowerHex _

/-- Witness for C10 at a concrete block of 32 random bytes. -/
theorem generate_api_key_shape_spot :
    (generate_api_key (List.replicate 32 0)).api_key.length = 64 ∧
    (∀ c ∈ (generate_api_key (List.replicate 32 0)).api_key.data, isLowerHex c = true) ∧
    (generate_api_key (List.replicate 32 0)).hashed_key.length = 64 ∧
    (∀ c ∈ (generate_api_key (List.replicate 32 0)).hashed_key.data, isLowerHex c = true) ∧
    (generate_api_key (List.replicate 32 0)).hashed_key =
      sha256hex (generate_api_key (List.replicate 32 0)).api_key :=
  generate_api_key_shape (List.replicate 32 0) (by decide)
    (fun b hb => by rw [List.eq_of_mem_replicate hb]; omega)

/-- C6: with falsy inputs, `validate_api_key` returns `False` and
`user_for_api_key` returns `None`, uniformly in the store — in particular
for a store whose every query raises, which shows no store lookup is
performed on these paths. -/
theorem empty_input_short_circuit :
    (∀ (store : Store) (user_id : Nat) (api_key : Option String),
        (user_id == 0 || isBlank api_key) = true →
        validate_api_key store user_id api_key = .ok false) ∧
    (∀ (store : Store) (api_key : Option String),
        isBlank api_key = true →
        user_for_api_key store api_key = .ok none) := by
  constructor
  · intro store user_id api_key h
    simp [validate_api_key, h]
  · intro store api_key h
    simp [user_for_api_key, h]

/-- Witness for C6: falsy inputs short-circuit even on a store whose every
query raises. -/
theorem empty_input_short_circuit_spot :
    validate_api_key raisingStore 0 (some "k") = .ok false ∧
    user_for_api_key raisingStore (some "") = .ok none :=
  ⟨empty_input_short_circuit.1 raisingStore 0 (some "k") (by decide),
   empty_input_short_circuit.2 raisingStore (some "") (by decide)⟩

/-- C2 counterexample: with a store whose user row has a `NULL` key hash,
`validate_api_key` raises a `TypeError` (from `compare_digest` with `None`,
outside the `try`); and with a store whose lookup raises,
`user_for_api_key` propagates the store error instead of returning `None`. -/
theorem validate_raises_on_null_hash :
    validate_api_key noneHashStore 1 (some "k") = .error .typeError ∧
    user_for_api_key raisingStore (some "k") = .error (.storeError ⟨"connection refused"⟩) := by
  constructor
  · rfl
  · rfl

/-- C2 (amended): for every store, `validate_api_key` returns `False` on
falsy inputs and `user_for_api_key` returns `None` on a falsy key, without
raising; `validate_api_key` also returns `False` — again without raising —
when the id lookup raises or finds no user, treating both exactly like an
invalid credential; and the two residual conditions that do raise are
fenced by their own hypotheses: `validate_api_key` returns normally
whenever the row found by id (if any) has a non-`NULL` key hash, and
`user_for_api_key` returns normally whenever the by-hash query does not
raise. -/
theorem auth_lookup_no_raise (store : Store) (user_id : Nat) (api_key : Option String) :
    ((user_id == 0 || isBlank api_key) = true →
        validate_api_key store user_id api_key = .ok false) ∧
    (isBlank api_key = true → user_for_api_key store api_key = .ok none) ∧
    (∀ e, store.get user_id = .error e →
        validate_api_key store user_id api_key = .ok false) ∧
    (store.get user_id = .ok none → validate_api_key store user_id api_key = .ok false) ∧
    (hashPresent store user_id = true →
        exceptOk (validate_api_key store user_id api_key) = true) ∧
    (exceptOk (store.filter_first (sha256hex (api_key.getD ""))) = true →
        exceptOk (user_for_api_key store api_key) = true) := by
  refine ⟨?_, ?_, ?_, ?_, ?_, ?_⟩
  · intro hb
    simp [validate_api_key, hb]
  · intro hb
    simp [user_for_api_key, hb]
  · intro e hget
    by_cases hb : (user_id == 0 || isBlank api_key) = true
    · simp [validate_api_key, hb]
    · simp [validate_api_key, hb, fetchUserHash, hget]
  · intro hget
    by_cases hb : (user_id == 0 || isBlank api_key) = true
    · simp [validate_api_key, hb]
    · simp [validate_api_key, hb, fetchUserHash, hget]
  · intro h1
    by_cases hb : (user_id == 0 || isBlank api_key) = true
    · simp [validate_api_key, hb, exceptOk]
    · simp only [validate_api_key, hb, if_false, Bool.false_eq_true]
      unfold fetchUserHash
      cases hget : store.get user_id with
      | error e => simp [exceptOk]
      | ok row =>
        cases row with
        | none => simp [exceptOk]
        | some u =>
          simp only [hashPresent, hget] at h1
          cases hk : u.api_key with
          | none => rw [hk] at h1; cases h1
          | some s => simp [hk, exceptOk]
  · intro h2
    by_cases hb : isBlank api_key = true
    · simp [user_for_api_key, hb, exceptOk]
    · simp only [user_for_api_key, hb, if_false, Bool.false_eq_true]
      cases hf : store.filter_first (sha256hex (api_key.getD "")) with
      | error e => rw [hf] at h2; cases h2
      | ok row => simp [exceptOk]

/-- Witness for the amended C2: a raising id lookup and an absent user both
yield `False`, a falsy key yields `None` even on a raising store, and on a
well-formed store both functions return normally. -/
theorem auth_lookup_no_raise_spot :
    validate_api_key raisingStore 1 (some "k") = .ok false ∧
    validate_api_key (dbStore []) 1 (some "k") = .ok false ∧
    user_for_api_key raisingStore none = .ok none ∧
    exceptOk (validate_api_key (dbStore [⟨1, some (sha256hex "k")⟩]) 1 (some "k")) = true ∧
    exceptOk (user_for_api_key (dbStore [⟨1, some (sha256hex "k")⟩]) (some "k")) = true := by
  refine ⟨?_, ?_, ?_, ?_, ?_⟩
  · exact (auth_lookup_no_raise raisingStore 1 (some "k")).2.2.1 ⟨"connection refused"⟩ rfl
  · exact (auth_lookup_no_raise (dbStore []) 1 (some "k")).2.2.2.1 rfl
  · exact (auth_lookup_no_raise raisingStore 1 none).2.1 rfl
  · exact (auth_lookup_no_raise (dbStore [⟨1, some (sha256hex "k")⟩]) 1 (some "k")).2.2.2.2.1
      (by decide)
  · exact (auth_lookup_no_raise (dbStore [⟨1, some (sha256hex "k")⟩]) 1 (some "k")).2.2.2.2.2
      (by decide)

/-- C3: on a non-empty secret the store is queried exactly with the SHA-256
hex digest of the secret (never with the raw secret), and on a table-backed
store the result is the first row whose stored hash equals that digest, or
`None` when no row's hash equals it. -/
theorem user_for_api_key_by_hash (store : Store) (users : List User) (secret : String)
    (hne : secret ≠ "") :
    user_for_api_key store (some secret) =
      (match store.filter_first (sha256hex secret) with
       | .error e => .error (.storeError e)
       | .ok u => .ok u) ∧
    user_for_api_key (dbStore users) (some secret) =
      .ok (users.find? fun u => u.api_key == some (sha256hex secret)) ∧
    ((∀ u ∈ users, u.api_key ≠ some (sha256hex secret)) →
      user_for_api_key (dbStore users) (some secret) = .ok none) := by
  have hb : isBlank (some secret) = false := by
    simp [isBlank, hne]
  refine ⟨?_, ?_, ?_⟩
  · simp [user_for_api_key, hb]
  · simp [user_for_api_key, hb, dbStore]
  · intro hnone
    have hfind : (users.find? fun u => u.api_key == some (sha256hex secret)) = none := by
      rw [List.find?_eq_none]
      intro u hu
      simpa using hnone u hu
    simp [user_for_api_key, hb, dbStore, hfind]

/-- Witness for C3: a concrete one-row table resolved by digest. -/
theorem user_for_api_key_by_hash_spot :
    user_for_api_key (dbStore [⟨1, some (sha256hex "k")⟩]) (some "k") =
      .ok (some ⟨1, some (sha256hex "k")⟩) := by
  have h := (user_for_api_key_by_hash (dbStore [⟨1, some (sha256hex "k")⟩])
    [⟨1, some (sha256hex "k")⟩] "k" (by decide)).2.1
  rw [h]
  decide

/-- C4: a generated pair round-trips through the store: when a store maps
user `u` to the generated `hashed_key`, the generated `api_key` validates
as `True` for `u.id` and resolves back to `u`; any other secret whose
digest differs from `hashed_key` validates as `False`. -/
theorem generate_validate_round_trip (randBytes : List Nat) (store : Store) (u : User)
    (other : Option String)
    (hlen : randBytes.length = 32)
    (hid : u.id ≠ 0)
    (hget : store.get u.id = .ok (some u))
    (hhash : u.api_key = some (generate_api_key randBytes).hashed_key)
    (hfirst : store.filter_first (generate_api_key randBytes).hashed_key = .ok (some u))
    (hother : sha256hex (other.getD "") ≠ (generate_api_key randBytes).hashed_key) :
    validate_api_key store u.id (some (generate_api_key randBytes).api_key) = .ok true ∧
    user_for_api_key store (some (generate_api_key randBytes).api_key) = .ok (some u) ∧
    validate_api_key store u.id other = .ok false := by
  have hdig : sha256hex (generate_api_key randBytes).api_key =
      (generate_api_key randBytes).hashed_key := rfl
  have hkeylen : (generate_api_key randBytes).api_key.length = 64 := by
    show (bytesToHex randBytes).length = 64
    rw [bytesToHex_length, hlen]
  have hne : (generate_api_key randBytes).api_key ≠ "" := by
    intro h
    rw [h] at hkeylen
    simp [String.length] at hkeylen
  have hb : isBlank (some (generate_api_key randBytes).api_key) = false := by
    simp [isBlank, hne]
  have hid' : (u.id == 0) = false := by
    simp [hid]
  refine ⟨?_, ?_, ?_⟩
  · simp only [validate_api_key, hid', hb, Bool.or_self, Option.getD_some]
    simp only [fetchUserHash, hget, hhash, hdig]
    simp
  · simp only [user_for_api_key, hb, Option.getD_some, Bool.false_eq_true, if_false, hdig,
      hfirst]
  · by_cases hb2 : isBlank other = true
    · simp [validate_api_key, hb2]
    · simp only [validate_api_key, hid', hb2, Bool.or_self, Bool.or_false]
      simp only [fetchUserHash, hget, hhash, Bool.false_eq_true, if_false]
      simp only [Except.ok.injEq]
      exact beq_eq_false_iff_ne.mpr hother

/-- Witness for C4 at a concrete generated pair and one-row store. -/
theorem generate_validate_round_trip_spot :
    validate_api_key (dbStore [⟨1, some (generate_api_key (List.replicate 32 0)).hashed_key⟩]) 1
      (some (generate_api_key (List.replicate 32 0)).api_key) = .ok true ∧
    user_for_api_key (dbStore [⟨1, some (generate_api_key (List.replicate 32 0)).hashed_key⟩])
      (some (generate_api_key (List.replicate 32 0)).api_key) =
      .ok (some ⟨1, some (generate_api_key (List.replicate 32 0)).hashed_key⟩) ∧
    validate_api_key (dbStore [⟨1, some (generate_api_key (List.replicate 32 0)).hashed_key⟩]) 1
      (some "x") = .ok false :=
  generate_validate_round_trip (List.replicate 32 0)
    (dbStore [⟨1, some (generate_api_key (List.replicate 32 0)).hashed_key⟩])
    ⟨1, some (generate_api_key (List.replicate 32 0)).hashed_key⟩ (some "x")
    (by decide) (by decide) (by decide) rfl (by decide) (by decide)

/-- C1: the guard never runs the wrapped body when resolution yields no
principal (the outcome is then the fixed `AuthError` and is independent of
the wrapped function), runs it exactly once with the resolved principal
bound when resolution yields one, and also skips it when resolution itself
raises. -/
theorem requires_auth_gating {α β : Type} (store : Store) (headers : Headers)
    (f g : α → User → β) (args : α) :
    (resolve_user store headers = .ok none →
        requires_auth store f args headers =
          .error (.auth (AuthError.ofMessage "Authorization is required to access this resource")) ∧
        requires_auth store f args headers = requires_auth store g args headers) ∧
    (∀ u, resolve_user store headers = .ok (some u) →
        requires_auth store f args headers = .ok (f args u)) ∧
    (∀ e, resolve_user store headers = .error e →
        requires_auth store f args headers = .error e ∧
        requires_auth store f args headers = requires_auth store g args headers) := by
  refine ⟨fun h => ?_, fun u h => ?_, fun e h => ?_⟩ <;>
    simp [requires_auth, decorated_function, h]

/-- Witness for C1: a resolved principal reaches the body exactly once, and
a request with no credentials is rejected with the body skipped. -/
theorem requires_auth_gating_spot :
    requires_auth (dbStore [⟨7, some (sha256hex "k")⟩]) (fun (n : Nat) (u : User) => n + u.id) 1
      ⟨none, some "k"⟩ = .ok 8 ∧
    requires_auth (dbStore [⟨7, some (sha256hex "k")⟩]) (fun (n : Nat) (u : User) => n + u.id) 1
      ⟨none, none⟩ =
      .error (.auth (AuthError.ofMessage "Authorization is required to access this resource")) := by
  constructor
  · have h := (requires_auth_gating (dbStore [⟨7, some (sha256hex "k")⟩]) ⟨none, some "k"⟩
      (fun (n : Nat) (u : User) => n + u.id) (fun n _ => n) 1).2.1
      ⟨7, some (sha256hex "k")⟩ (by decide)
    rw [h]
    rfl
  · exact ((requires_auth_gating (dbStore [⟨7, some (sha256hex "k")⟩]) ⟨none, none⟩
      (fun (n : Nat) (u : User) => n + u.id) (fun n _ => n) 1).1 (by decide)).1

/-- C5: the JWT path always yields no principal; whenever the guard
attempts API-key resolution, the preceding JWT attempt has yielded no
principal; and a principal resolved from the `Authorization` header is
never discarded by a subsequent API-key lookup. -/
theorem jwt_attempted_first :
    (∀ a, user_from_jwt a = none) ∧
    (∀ headers, api_key_attempted headers = true → jwt_user headers = none) ∧
    (∀ (store : Store) (headers : Headers) (u : User),
        jwt_user headers = some u → resolve_user store headers = .ok (some u)) := by
  refine ⟨fun a => rfl, fun headers _ => ?_, fun store headers u hu => ?_⟩
  · cases h : headers.authorization <;> simp [jwt_user, user_from_jwt, h]
  · exfalso
    cases h : headers.authorization <;> simp [jwt_user, user_from_jwt, h] at hu

/-- Witness for C5: a request carrying both headers attempts the API key
with the JWT attempt having yielded no principal. -/
theorem jwt_attempted_first_spot :
    jwt_user ⟨some "Bearer t", some "k"⟩ = none :=
  jwt_attempted_first.2.1 ⟨some "Bearer t", some "k"⟩ rfl

/-- C7: a request with neither credential, and a request whose `x-api-key`
header is present but empty, are both rejected with exactly the fixed
generic message, which echoes nothing about the submitted credential. -/
theorem guard_generic_failure {α β : Type} (store : Store) (headers : Headers)
    (f : α → User → β) (args : α)
    (h : (headers.x_api_key = none ∧ headers.authorization = none) ∨
      headers.x_api_key = some "") :
    requires_auth store f args headers =
      .error (.auth ⟨"Authorization is required to access this resource", 401⟩) := by
  rcases h with ⟨hx, ha⟩ | hx
  · simp [requires_auth, decorated_function, resolve_user, jwt_user, hx, ha,
      AuthError.ofMessage]
  · simp [requires_auth, decorated_function, resolve_user, user_for_api_key, isBlank, hx,
      AuthError.ofMessage]

/-- Witness for C7: both rejection shapes at concrete requests, on a store
whose every query raises (so no lookup can have influenced the outcome). -/
theorem guard_generic_failure_spot :
    requires_auth raisingStore (fun (n : Nat) (_ : User) => n) 0 ⟨none, none⟩ =
      .error (.auth ⟨"Authorization is required to access this resource", 401⟩) ∧
    requires_auth raisingStore (fun (n : Nat) (_ : User) => n) 0 ⟨some "Bearer t", some ""⟩ =
      .error (.auth ⟨"Authorization is required to access this resource", 401⟩) :=
  ⟨guard_generic_failure raisingStore ⟨none, none⟩ (fun n _ => n) 0 (Or.inl ⟨rfl, rfl⟩),
   guard_generic_failure raisingStore ⟨some "Bearer t", some ""⟩ (fun n _ => n) 0 (Or.inr rfl)⟩

/-- Any exception escaping `user_for_api_key` is an uncaught store error. -/
theorem user_for_api_key_error_shape (store : Store) (api_key : Option String) (e : PyError)
    (h : user_for_api_key store api_key = .error e) : ∃ s, e = .storeError s := by
  by_cases hb : isBlank api_key = true
  · simp [user_for_api_key, hb] at h
  · simp only [user_for_api_key, hb, Bool.false_eq_true, if_false] at h
    cases hf : store.filter_first (sha256hex (api_key.getD "")) with
    | error s =>
      rw [hf] at h
      exact ⟨s, (Except.error.injEq _ _).mp h.symm⟩
    | ok row => rw [hf] at h; cases h

/-- Any exception escaping credential resolution is an uncaught store
error. -/
theorem resolve_user_error_shape (store : Store) (headers : Headers) (e : PyError)
    (h : resolve_user store headers = .error e) : ∃ s, e = .storeError s := by
  obtain ⟨ha, hx⟩ := headers
  cases hx with
  | none => cases h
  | some k => exact user_for_api_key_error_shape store (some k) e h

/-- C8: an `AuthError` built from a message alone carries status code 401,
and every `AuthError` the guard raises carries status code 401 (the auth
core itself never produces 403). -/
theorem auth_error_default_401 :
    (∀ m, (AuthError.ofMessage m).status_code = 401) ∧
    (∀ (α β : Type) (store : Store) (headers : Headers) (f : α → User → β) (args : α)
        (e : AuthError),
        requires_auth store f args headers = .error (.auth e) → e.status_code = 401) := by
  refine ⟨fun m => rfl, fun α β store headers f args e h => ?_⟩
  unfold requires_auth decorated_function at h
  cases hr : resolve_user store headers with
  | error pe =>
    rw [hr] at h
    injection h with h'
    obtain ⟨s, hs⟩ := resolve_user_error_shape store headers pe hr
    rw [hs] at h'
    cases h'
  | ok row =>
    cases row with
    | none =>
      rw [hr] at h
      injection h with h'
      injection h' with h''
      rw [← h'']
      rfl
    | some u => rw [hr] at h; cases h

/-- Witness for C8: the error raised for a credential-free request carries
status code 401. -/
theorem auth_error_default_401_spot :
    requires_auth raisingStore (fun (n : Nat) (_ : User) => n) 0 ⟨none, none⟩ =
      .error (.auth ⟨"Authorization is required to access this resource", 401⟩) ∧
    (⟨"Authorization is required to access this resource", 401⟩ : AuthError).status_code = 401 :=
  ⟨by decide,
   auth_error_default_401.2 Nat Nat raisingStore ⟨none, none⟩ (fun n _ => n) 0
     ⟨"Authorization is required to access this resource", 401⟩ (by decide)⟩

end Charlotte
